import Mathlib

/-!
Verification of `netbox/api/authentication.py`: token authentication
(`TokenAuthentication.authenticate_credentials`), token write-permission
gating (`TokenPermissions`) and the anonymous-access policy
(`IsAuthenticatedOrLoginNotRequired`), shallowly embedded in Lean.

Time instants are modelled as integers (seconds); the database row for a
token is modelled by the `Token` structure, and the single mutable effect
of the code (`token.save()` refreshing `last_used`) is made explicit in
the `AuthOutput` record returned by the embedded resolver.
-/

namespace Netbox

/-- The three authentication failures raised by `authenticate_credentials`:
"Invalid token", "Token expired", "User inactive". -/
inductive AuthFailure
  | invalid
  | expired
  | inactive
deriving DecidableEq, Repr

/-- The fields of `users.models.User` consulted by this module. -/
structure User where
  is_active : Bool
  username : String
deriving DecidableEq, Repr

/-- The fields of `users.models.Token` consulted by this module.
`last_used` and `expires` are optional datetimes, modelled as optional
integer instants. -/
structure Token where
  key : String
  last_used : Option Int
  expires : Option Int
  write_enabled : Bool
  user : User
deriving DecidableEq, Repr

/-- The dynamic configuration consulted via `get_config()`. -/
structure Config where
  MAINTENANCE_MODE : Bool
deriving DecidableEq, Repr

/-- The Django settings consulted by the module: whether
`REMOTE_AUTH_BACKEND` names the LDAP backend, and the LDAP backend's
`FIND_GROUP_PERMS` flag. -/
structure Settings where
  remote_auth_is_ldap : Bool
  FIND_GROUP_PERMS : Bool
deriving DecidableEq, Repr

/-- Modelled from the spec: `Token.is_expired` is defined in
`users/models.py`, which is not among the sources here.  Per the spec,
a token is expired when "the token's expiration instant is set and is in
the past" (strictly before now). -/
def Token.is_expired (t : Token) (now : Int) : Bool :=
  match t.expires with
  | none => false
  | some e => decide (e < now)

/-- The throttle condition guarding the `last_used` refresh:
`if not token.last_used or (timezone.now() - token.last_used).total_seconds() > 6`.
A `datetime` is always truthy in Python, so `not token.last_used` holds
exactly when the field is unset. -/
def throttleDue (t : Token) (now : Int) : Bool :=
  match t.last_used with
  | none => true
  | some lu => decide (now - lu > 6)

instance {ε α : Type} [DecidableEq ε] [DecidableEq α] : DecidableEq (Except ε α)
  | .error a, .error b =>
      if h : a = b then .isTrue (by rw [h]) else .isFalse (by simp [h])
  | .error _, .ok _ => .isFalse (by simp)
  | .ok _, .error _ => .isFalse (by simp)
  | .ok a, .ok b =>
      if h : a = b then .isTrue (by rw [h]) else .isFalse (by simp [h])

/-- The observable outcome of one `authenticate_credentials` call:
the returned pair or raised failure, whether `token.save()` ran
(refreshing `last_used`), the token's `last_used` field after the call
(meaningful when the key resolved to a token), and whether the LDAP
directory was contacted (`populate_user` called). -/
structure AuthOutput where
  result : Except AuthFailure (User × Token)
  saved : Bool
  last_used_after : Option Int
  ldap_contacted : Bool
deriving DecidableEq, Repr

/-- The body of `authenticate_credentials` after the key lookup
succeeded, embedding the source line by line: the throttled `last_used`
refresh (suppressed in maintenance mode), the expiration check, the
user-activity check, and the LDAP identity override. -/
def authenticate_token (cfg : Config) (st : Settings)
    (populate_user : String → Option User) (now : Int)
    (token0 : Token) : AuthOutput :=
  let save := throttleDue token0 now && !cfg.MAINTENANCE_MODE
  let token := if save then { token0 with last_used := some now } else token0
  let branch : Except AuthFailure (User × Token) × Bool :=
    if token.is_expired now then
      (.error .expired, false)
    else if !token.user.is_active then
      (.error .inactive, false)
    else if st.remote_auth_is_ldap && st.FIND_GROUP_PERMS then
      match populate_user token.user.username with
      | some u => (.ok (u, token), true)
      | none => (.ok (token.user, token), true)
    else
      (.ok (token.user, token), false)
  { result := branch.1, saved := save,
    last_used_after := token.last_used, ldap_contacted := branch.2 }

/-- `TokenAuthentication.authenticate_credentials`: the key lookup
(`model.objects.get(key=key)`, raising "Invalid token" on absence)
followed by `authenticate_token`. -/
def authenticate_credentials (cfg : Config) (st : Settings)
    (populate_user : String → Option User)
    (lookup : String → Option Token) (now : Int) (key : String) : AuthOutput :=
  match lookup key with
  | none =>
      { result := .error .invalid, saved := false,
        last_used_after := none, ldap_contacted := false }
  | some token0 => authenticate_token cfg st populate_user now token0

/-- The HTTP methods appearing in `perms_map`. -/
inductive Method
  | GET
  | HEAD
  | OPTIONS
  | POST
  | PUT
  | PATCH
  | DELETE
deriving DecidableEq, Repr

/-- `rest_framework.permissions.SAFE_METHODS = ('GET', 'HEAD', 'OPTIONS')`. -/
def Method.isSafe : Method → Bool
  | .GET | .HEAD | .OPTIONS => true
  | _ => false

/-- `request.auth`: a `Token` instance when token authentication was used,
some other credential for other mechanisms (e.g. session auth), or absent. -/
inductive Credential
  | tok (t : Token)
  | session
  | anonymous
deriving DecidableEq, Repr

/-- `isinstance(request.auth, Token)`. -/
def Credential.isToken : Credential → Bool
  | .tok _ => true
  | _ => false

/-- `request.auth.write_enabled`.  Only ever evaluated on a `Token`
credential: `_verify_write_permission` reaches it only under the
`isinstance(request.auth, Token)` guard of its callers, after the
safe-method disjunct short-circuited. -/
def Credential.write_enabled : Credential → Bool
  | .tok t => t.write_enabled
  | _ => false

/-- The parts of the request consulted by the permission classes. -/
structure Request where
  method : Method
  auth : Credential
  user_is_authenticated : Bool
deriving DecidableEq, Repr

/-- `TokenPermissions._verify_write_permission`.  The Python body is
`if request.method in SAFE_METHODS or request.auth.write_enabled: return True`
with no other return, so the function yields `True` or `None`; the
`Option Bool` result models that pair of outcomes faithfully. -/
def verify_write_permission (req : Request) : Option Bool :=
  if req.method.isSafe || req.auth.write_enabled then some true else none

/-- Python truthiness of a `True`-or-`None` value, as tested by the
`not self._verify_write_permission(request)` guard. -/
def pyTruthy : Option Bool → Bool
  | some b => b
  | none => false

/-- `TokenPermissions.has_permission`.  `base` is the result the
inherited `DjangoObjectPermissions.has_permission` would return for this
request; the second component of the result records whether that base
capability check was consulted. -/
def has_permission (req : Request) (base : Bool) : Bool × Bool :=
  if req.auth.isToken && !(pyTruthy (verify_write_permission req)) then
    (false, false)
  else
    (base, true)

/-- `TokenPermissions.has_object_permission`, with the same shape as
`has_permission`: `base_obj` is the inherited object-level check's
result, and the second component records whether it was consulted. -/
def has_object_permission (req : Request) (base_obj : Bool) : Bool × Bool :=
  if req.auth.isToken && !(pyTruthy (verify_write_permission req)) then
    (false, false)
  else
    (base_obj, true)

/-- `IsAuthenticatedOrLoginNotRequired.has_permission`: allow when
`LOGIN_REQUIRED` is off, otherwise return `request.user.is_authenticated`. -/
def isAuthenticatedOrLoginNotRequired (login_required : Bool)
    (req : Request) : Bool :=
  if !login_required then true
  else req.user_is_authenticated

/-! ## Helper lemmas -/

theorem authenticate_credentials_lookup (cfg : Config) (st : Settings)
    (populate_user : String → Option User) (lookup : String → Option Token)
    (now : Int) (key : String) (t : Token) (hl : lookup key = some t) :
    authenticate_credentials cfg st populate_user lookup now key
      = authenticate_token cfg st populate_user now t := by
  simp [authenticate_credentials, hl]

theorem is_expired_refresh (t : Token) (v now : Int) :
    Token.is_expired { t with last_used := some v } now = t.is_expired now := rfl

theorem authenticate_token_saved (cfg : Config) (st : Settings)
    (populate_user : String → Option User) (now : Int) (t0 : Token) :
    (authenticate_token cfg st populate_user now t0).saved
      = (throttleDue t0 now && !cfg.MAINTENANCE_MODE) := rfl

theorem authenticate_token_last_used (cfg : Config) (st : Settings)
    (populate_user : String → Option User) (now : Int) (t0 : Token) :
    (authenticate_token cfg st populate_user now t0).last_used_after
      = (if throttleDue t0 now && !cfg.MAINTENANCE_MODE
         then some now else t0.last_used) := by
  simp only [authenticate_token]
  cases h : throttleDue t0 now && !cfg.MAINTENANCE_MODE <;> simp [h]

theorem authenticate_token_expired (cfg : Config) (st : Settings)
    (populate_user : String → Option User) (now : Int) (t0 : Token)
    (h : t0.is_expired now = true) :
    (authenticate_token cfg st populate_user now t0).result = .error .expired := by
  simp only [authenticate_token]
  cases hs : throttleDue t0 now && !cfg.MAINTENANCE_MODE <;>
    simp [hs, is_expired_refresh, h]

/-! ## Claim C1 -/

/-- A token that expired one second before the call (expiry instant 99,
call at instant 100), with `last_used` unset. -/
def c1Token : Token :=
  { key := "abc123", last_used := none, expires := some 99,
    write_enabled := true, user := { is_active := true, username := "alice" } }

def c1Lookup : String → Option Token :=
  fun k => if k = "abc123" then some c1Token else none

/-- C1 counterexample: for a token expired one second ago whose
`last_used` is unset, `authenticate_credentials` does fail with
`Expired`, but the failing call writes `last_used` (the throttled
refresh precedes the expiration check in the source), so `last_used`
is not left unmodified as the claim states. -/
theorem c1_counterexample :
    (authenticate_credentials ⟨false⟩ ⟨false, false⟩ (fun _ => none)
        c1Lookup 100 "abc123").result = .error .expired ∧
    (authenticate_credentials ⟨false⟩ ⟨false, false⟩ (fun _ => none)
        c1Lookup 100 "abc123").saved = true ∧
    (authenticate_credentials ⟨false⟩ ⟨false, false⟩ (fun _ => none)
        c1Lookup 100 "abc123").last_used_after ≠ c1Token.last_used := by
  refine ⟨rfl, rfl, ?_⟩
  decide

/-- C1 (amended): for every token whose expiration instant is strictly in
the past, `resolve` fails with `Expired`; however the failing call
refreshes `last_used` to `now` exactly when `last_used` is unset or more
than the throttle window old and maintenance mode is off, and leaves
`last_used` unmodified otherwise. -/
theorem c1_expired_refreshes_last_used (cfg : Config) (st : Settings)
    (populate_user : String → Option User) (lookup : String → Option Token)
    (now : Int) (key : String) (t : Token) (e : Int)
    (hl : lookup key = some t) (hexp : t.expires = some e) (hlt : e < now) :
    (authenticate_credentials cfg st populate_user lookup now key).result
        = .error .expired ∧
    (authenticate_credentials cfg st populate_user lookup now key).last_used_after
        = (if throttleDue t now && !cfg.MAINTENANCE_MODE then some now
           else t.last_used) := by
  rw [authenticate_credentials_lookup cfg st populate_user lookup now key t hl]
  exact ⟨authenticate_token_expired _ _ _ _ _ (by simp [Token.is_expired, hexp, hlt]),
    authenticate_token_last_used _ _ _ _ _⟩

/-- C1 (amended) witness: at the concrete expired token of the
counterexample, the call fails with `Expired` and refreshes `last_used`
to the call instant 100. -/
theorem c1_expired_refreshes_last_used_witness :
    (authenticate_credentials ⟨false⟩ ⟨false, false⟩ (fun _ => none)
        c1Lookup 100 "abc123").result = .error .expired ∧
    (authenticate_credentials ⟨false⟩ ⟨false, false⟩ (fun _ => none)
        c1Lookup 100 "abc123").last_used_after
      = (if throttleDue c1Token 100 && !(Config.mk false).MAINTENANCE_MODE
         then some 100 else c1Token.last_used) :=
  c1_expired_refreshes_last_used ⟨false⟩ ⟨false, false⟩ (fun _ => none)
    c1Lookup 100 "abc123" c1Token 99 (by decide) rfl (by decide)

/-! ## Claim C5 -/

/-- C5: for every token whose expiration instant is set and strictly
before `now`, `authenticate_credentials` fails with `Expired`, for every
value of `write_enabled` and of the owning user's active flag (the
universally quantified token covers them all): the expiration check
precedes the user-activity check. -/
theorem c5_expired_resolve_fails (cfg : Config) (st : Settings)
    (populate_user : String → Option User) (lookup : String → Option Token)
    (now : Int) (key : String) (t : Token) (e : Int)
    (hl : lookup key = some t) (hexp : t.expires = some e) (hlt : e < now) :
    (authenticate_credentials cfg st populate_user lookup now key).result
      = .error .expired := by
  rw [authenticate_credentials_lookup cfg st populate_user lookup now key t hl]
  exact authenticate_token_expired _ _ _ _ _ (by simp [Token.is_expired, hexp, hlt])

/-- An expired token whose `write_enabled` is false and whose owning
user is inactive. -/
def c5Token : Token :=
  { key := "c5", last_used := none, expires := some 99,
    write_enabled := false, user := { is_active := false, username := "bob" } }

/-- C5 witness: the expired token of an inactive user with
`write_enabled = false` still fails with `Expired`, not `InactiveUser`. -/
theorem c5_expired_resolve_fails_witness :
    (authenticate_credentials ⟨false⟩ ⟨false, false⟩ (fun _ => none)
      (fun k => if k = "c5" then some c5Token else none) 100 "c5").result
      = .error .expired :=
  c5_expired_resolve_fails ⟨false⟩ ⟨false, false⟩ (fun _ => none)
    (fun k => if k = "c5" then some c5Token else none) 100 "c5" c5Token 99
    (by decide) rfl (by decide)

/-! ## Claim C2 -/

/-- A live token whose `last_used` was written at instant 0. -/
def c2Token : Token :=
  { key := "k2", last_used := some 0, expires := none,
    write_enabled := true, user := { is_active := true, username := "carol" } }

/-- C2: the claim promises at most one `last_used` write per 60-second
window, matching the source comment "Update last used, but only once a
minute"; but the code's throttle threshold is 6 seconds, so a call 7
seconds after the previous write (well inside the 60-second window)
writes `last_used` again. -/
theorem c2_second_write_within_60s :
    (authenticate_credentials ⟨false⟩ ⟨false, false⟩ (fun _ => none)
        (fun k => if k = "k2" then some c2Token else none) 7 "k2").saved
      = true ∧
    (authenticate_credentials ⟨false⟩ ⟨false, false⟩ (fun _ => none)
        (fun k => if k = "k2" then some c2Token else none) 7 "k2").last_used_after
      = some 7 := by
  refine ⟨rfl, ?_⟩
  decide

/-! ## Claim C6 -/

/-- C6: when maintenance mode is enabled, `authenticate_credentials`
never writes `last_used`: for every token the presented key resolves to
— including tokens whose `last_used` is unset or stale — the call leaves
the stored `last_used` unchanged. -/
theorem c6_maintenance_never_writes (st : Settings)
    (populate_user : String → Option User) (lookup : String → Option Token)
    (now : Int) (key : String) (t : Token) (hl : lookup key = some t) :
    (authenticate_credentials ⟨true⟩ st populate_user lookup now key).saved
      = false ∧
    (authenticate_credentials ⟨true⟩ st populate_user lookup now key).last_used_after
      = t.last_used := by
  rw [authenticate_credentials_lookup ⟨true⟩ st populate_user lookup now key t hl]
  rw [authenticate_token_saved, authenticate_token_last_used]
  simp

/-- A token whose `last_used` is unset, hence otherwise eligible for a
`last_used` refresh. -/
def c6Token : Token :=
  { key := "c6", last_used := none, expires := none,
    write_enabled := true, user := { is_active := true, username := "erin" } }

/-- C6 witness: in maintenance mode, the otherwise-eligible token with
unset `last_used` is not written. -/
theorem c6_maintenance_never_writes_witness :
    (authenticate_credentials ⟨true⟩ ⟨false, false⟩ (fun _ => none)
      (fun k => if k = "c6" then some c6Token else none) 100 "c6").saved
      = false ∧
    (authenticate_credentials ⟨true⟩ ⟨false, false⟩ (fun _ => none)
      (fun k => if k = "c6" then some c6Token else none) 100 "c6").last_used_after
      = c6Token.last_used :=
  c6_maintenance_never_writes ⟨false, false⟩ (fun _ => none)
    (fun k => if k = "c6" then some c6Token else none) 100 "c6" c6Token (by decide)

/-! ## Claim C8 -/

/-- C8: under sequential calls, once `last_used` holds an instant `s`,
every call at an instant `now` with `now - s ≤ 6` seconds performs no
further write and leaves `last_used` at `s`. -/
theorem c8_six_second_window (cfg : Config) (st : Settings)
    (populate_user : String → Option User) (lookup : String → Option Token)
    (now : Int) (key : String) (t : Token) (s : Int)
    (hl : lookup key = some t) (hlu : t.last_used = some s)
    (hwin : now - s ≤ 6) :
    (authenticate_credentials cfg st populate_user lookup now key).saved
      = false ∧
    (authenticate_credentials cfg st populate_user lookup now key).last_used_after
      = some s := by
  have hth : throttleDue t now = false := by
    simp only [throttleDue, hlu, decide_eq_false_iff_not]
    omega
  rw [authenticate_credentials_lookup cfg st populate_user lookup now key t hl]
  rw [authenticate_token_saved, authenticate_token_last_used]
  simp [hth, hlu]

/-- A token whose `last_used` was written at instant 100. -/
def c8Token : Token :=
  { key := "c8", last_used := some 100, expires := none,
    write_enabled := true, user := { is_active := true, username := "frank" } }

/-- C8 witness: a call 6 seconds after the last write (the window
boundary) performs no further write. -/
theorem c8_six_second_window_witness :
    (authenticate_credentials ⟨false⟩ ⟨false, false⟩ (fun _ => none)
      (fun k => if k = "c8" then some c8Token else none) 106 "c8").saved
      = false ∧
    (authenticate_credentials ⟨false⟩ ⟨false, false⟩ (fun _ => none)
      (fun k => if k = "c8" then some c8Token else none) 106 "c8").last_used_after
      = some 100 :=
  c8_six_second_window ⟨false⟩ ⟨false, false⟩ (fun _ => none)
    (fun k => if k = "c8" then some c8Token else none) 106 "c8" c8Token 100
    (by decide) rfl (by decide)

/-! ## Claim C3 -/

/-- C3: for every token-authenticated request, `_verify_write_permission`
is truthy for every safe method (GET, HEAD, OPTIONS) regardless of the
token's `write_enabled` flag, and for every unsafe method (POST, PUT,
PATCH, DELETE) its truthiness is exactly `token.write_enabled`.  (The
Python function returns `True` or falls through to `None`; its callers
observe only its truthiness.) -/
theorem c3_verify_write_permission (t : Token) (m : Method) (authd : Bool) :
    (m.isSafe = true →
      pyTruthy (verify_write_permission ⟨m, .tok t, authd⟩) = true) ∧
    (m.isSafe = false →
      pyTruthy (verify_write_permission ⟨m, .tok t, authd⟩)
        = t.write_enabled) := by
  constructor <;> intro h <;>
    cases hw : t.write_enabled <;>
      simp [verify_write_permission, pyTruthy, Credential.write_enabled, h, hw]

/-- A token with `write_enabled = false`. -/
def c3Token : Token :=
  { key := "c3", last_used := none, expires := none,
    write_enabled := false, user := { is_active := true, username := "gail" } }

/-- C3 witness: GET passes despite `write_enabled = false`; POST yields
exactly `write_enabled`, here false. -/
theorem c3_verify_write_permission_witness :
    pyTruthy (verify_write_permission ⟨.GET, .tok c3Token, true⟩) = true ∧
    pyTruthy (verify_write_permission ⟨.POST, .tok c3Token, true⟩)
      = c3Token.write_enabled :=
  ⟨(c3_verify_write_permission c3Token .GET true).1 rfl,
   (c3_verify_write_permission c3Token .POST true).2 rfl⟩

/-! ## Claim C4 -/

/-- C4: when the request's credential is a Token and
`_verify_write_permission` is falsy, both `has_permission` and
`has_object_permission` return false with the base capability check
never consulted, whatever that base check would have returned. -/
theorem c4_token_short_circuit (t : Token) (m : Method) (authd : Bool)
    (base base_obj : Bool)
    (h : pyTruthy (verify_write_permission ⟨m, .tok t, authd⟩) = false) :
    has_permission ⟨m, .tok t, authd⟩ base = (false, false) ∧
    has_object_permission ⟨m, .tok t, authd⟩ base_obj = (false, false) := by
  simp [has_permission, has_object_permission, Credential.isToken, h]

/-- The token of the spec's Scenario A: key `"abc123"`,
`write_enabled = false`. -/
def c4Token : Token :=
  { key := "abc123", last_used := none, expires := none,
    write_enabled := false, user := { is_active := true, username := "alice" } }

/-- C4 witness (Scenario A): token key `"abc123"`,
`write_enabled = false`, method POST: the collection check returns false
and the base check is never invoked (it would have returned true). -/
theorem c4_token_short_circuit_witness :
    has_permission ⟨.POST, .tok c4Token, true⟩ true = (false, false) ∧
    has_object_permission ⟨.POST, .tok c4Token, true⟩ true = (false, false) :=
  c4_token_short_circuit c4Token .POST true true true (by decide)

/-! ## Claim C9 -/

/-- C9: for every request whose credential is not a Token instance, both
permission checks skip the write-enabled short-circuit entirely: the
result is exactly the base capability check's result (which is
consulted), for every HTTP method. -/
theorem c9_non_token_delegates (req : Request) (base base_obj : Bool)
    (h : req.auth.isToken = false) :
    has_permission req base = (base, true) ∧
    has_object_permission req base_obj = (base_obj, true) := by
  simp [has_permission, has_object_permission, h]

/-- C9 witness: a session-authenticated POST request delegates to the
base check on both levels, here with differing base results. -/
theorem c9_non_token_delegates_witness :
    has_permission ⟨.POST, .session, true⟩ true = (true, true) ∧
    has_object_permission ⟨.POST, .session, true⟩ false = (false, true) :=
  c9_non_token_delegates ⟨.POST, .session, true⟩ true false rfl

/-! ## Claim C7 -/

/-- C7: the anonymous-access policy returns true for every request when
`LOGIN_REQUIRED` is false; when `LOGIN_REQUIRED` is true it returns
exactly the request's authentication status; and it is a pure function
of those two inputs: two requests agreeing on authentication status get
the same answer under either flag value. -/
theorem c7_anonymous_access_policy (lr : Bool) (req req2 : Request) :
    isAuthenticatedOrLoginNotRequired false req = true ∧
    isAuthenticatedOrLoginNotRequired true req = req.user_is_authenticated ∧
    (req.user_is_authenticated = req2.user_is_authenticated →
      isAuthenticatedOrLoginNotRequired lr req
        = isAuthenticatedOrLoginNotRequired lr req2) := by
  refine ⟨rfl, rfl, fun h => ?_⟩
  cases lr <;> simp [isAuthenticatedOrLoginNotRequired, h]

/-- C7 witness (Scenario D included): with `LOGIN_REQUIRED = true` an
unauthenticated request is denied; with it false the same request is
allowed; the answer is unchanged across requests differing only in
method and credential. -/
theorem c7_anonymous_access_policy_witness :
    isAuthenticatedOrLoginNotRequired false ⟨.GET, .anonymous, false⟩ = true ∧
    isAuthenticatedOrLoginNotRequired true ⟨.GET, .anonymous, false⟩ = false ∧
    isAuthenticatedOrLoginNotRequired true ⟨.GET, .anonymous, false⟩
      = isAuthenticatedOrLoginNotRequired true ⟨.POST, .session, false⟩ :=
  ⟨(c7_anonymous_access_policy true ⟨.GET, .anonymous, false⟩
      ⟨.POST, .session, false⟩).1,
   (c7_anonymous_access_policy true ⟨.GET, .anonymous, false⟩
      ⟨.POST, .session, false⟩).2.1,
   (c7_anonymous_access_policy true ⟨.GET, .anonymous, false⟩
      ⟨.POST, .session, false⟩).2.2 rfl⟩

/-! ## Claim C10 -/

/-- C10: the LDAP identity override runs only after the expiration and
user-activity checks: a key resolving to an expired token, or to a live
token of an inactive user, fails with the corresponding error without
`populate_user` ever being called; and when the override does run and
returns a match, the returned pair is the directory user together with
the original token (same key, expiration, write flag and owning user;
only `last_used` may have been refreshed by the throttled write). -/
theorem c10_ldap_override_ordering (cfg : Config) (st : Settings)
    (populate_user : String → Option User) (lookup : String → Option Token)
    (now : Int) (key : String) (t : Token) (u : User)
    (hl : lookup key = some t) :
    (t.is_expired now = true →
      (authenticate_credentials cfg st populate_user lookup now key).ldap_contacted
        = false ∧
      (authenticate_credentials cfg st populate_user lookup now key).result
        = .error .expired) ∧
    (t.is_expired now = false → t.user.is_active = false →
      (authenticate_credentials cfg st populate_user lookup now key).ldap_contacted
        = false ∧
      (authenticate_credentials cfg st populate_user lookup now key).result
        = .error .inactive) ∧
    (t.is_expired now = false → t.user.is_active = true →
      st.remote_auth_is_ldap = true → st.FIND_GROUP_PERMS = true →
      populate_user t.user.username = some u →
      ∃ t2 : Token,
        (authenticate_credentials cfg st populate_user lookup now key).result
          = .ok (u, t2) ∧
        t2.key = t.key ∧ t2.expires = t.expires ∧
        t2.write_enabled = t.write_enabled ∧ t2.user = t.user) := by
  rw [authenticate_credentials_lookup cfg st populate_user lookup now key t hl]
  simp only [authenticate_token]
  cases hsave : throttleDue t now && !cfg.MAINTENANCE_MODE
  case false =>
    refine ⟨fun hexp => ?_, fun hexp hact => ?_,
      fun hexp hact h1 h2 hpu => ?_⟩
    · simp [hsave, hexp]
    · simp [hsave, hexp, hact]
    · refine ⟨t, ?_, rfl, rfl, rfl, rfl⟩
      simp [hsave, hexp, hact, h1, h2, hpu]
  case true =>
    refine ⟨fun hexp => ?_, fun hexp hact => ?_,
      fun hexp hact h1 h2 hpu => ?_⟩
    · simp [hsave, is_expired_refresh, hexp]
    · simp [hsave, is_expired_refresh, hexp, hact]
    · refine ⟨{ t with last_used := some now }, ?_, rfl, rfl, rfl, rfl⟩
      simp [hsave, is_expired_refresh, hexp, hact, h1, h2, hpu]

/-- A live token of an active user, eligible for the LDAP override. -/
def c10Token : Token :=
  { key := "c10", last_used := some 50, expires := some 200,
    write_enabled := true, user := { is_active := true, username := "dave" } }

/-- The identity returned for `"dave"` by the directory service. -/
def c10DirUser : User := { is_active := true, username := "dave" }

/-- C10 witness: with the LDAP backend active and `FIND_GROUP_PERMS`
set, the directory match is returned as the user, paired with the
original token (only `last_used` refreshed). -/
theorem c10_ldap_override_ordering_witness :
    ∃ t2 : Token,
      (authenticate_credentials ⟨false⟩ ⟨true, true⟩ (fun _ => some c10DirUser)
          (fun k => if k = "c10" then some c10Token else none) 100 "c10").result
        = .ok (c10DirUser, t2) ∧
      t2.key = c10Token.key ∧ t2.expires = c10Token.expires ∧
      t2.write_enabled = c10Token.write_enabled ∧ t2.user = c10Token.user :=
  (c10_ldap_override_ordering ⟨false⟩ ⟨true, true⟩ (fun _ => some c10DirUser)
      (fun k => if k = "c10" then some c10Token else none) 100 "c10"
      c10Token c10DirUser (by decide)).2.2 rfl rfl rfl rfl rfl

end Netbox
